import Mathlib

/-!
Verification of the Bearer-token authentication gate (`authMiddleware`)
of the hotupdater example server.

The source (TypeScript, Express middleware):

```
const authHeader = req.headers.authorization;
if (!authHeader) {
  return res.status(401).json({ error: "Missing authorization header" });
}
const token = authHeader.split(" ")[1];
if (!token) {
  return res.status(401).json({ error: "Invalid authorization header format" });
}
if (token !== process.env.API_KEY) {
  return res.status(403).json({ error: "Invalid API key" });
}
next();
```

JavaScript facts embedded faithfully:
* `req.headers.authorization` is `string | undefined`, modelled as `Option String`.
* `!s` on a string is true exactly when the string is `undefined` or empty,
  so a present-but-empty header takes the "missing" branch, and an empty
  second field takes the "malformed" branch.
* `s.split(" ")` splits on each occurrence of the single space character
  U+0020 and keeps empty fields: `"".split(" ") = [""]`,
  `"a  b".split(" ") = ["a", "", "b"]`, `" x".split(" ") = ["", "x"]`.
* `arr[1]` is `undefined` when the array has fewer than two elements,
  modelled as `List.get? 1`.
* `process.env.API_KEY` is `string | undefined`, modelled as `Option String`;
  `token !== apiKey` with `token : string` is true whenever `apiKey` is
  `undefined`.
-/

namespace HotUpdater

/-- Accumulator-based splitter over the character list: split at every
occurrence of the given character, keeping empty fields, exactly as
JavaScript `String.prototype.split` with a single-character separator. -/
def splitCharAux (sep : Char) : List Char → List Char → List (List Char)
  | [], acc => [acc.reverse]
  | c :: cs, acc =>
      if c = sep then acc.reverse :: splitCharAux sep cs []
      else splitCharAux sep cs (c :: acc)

/-- JavaScript `s.split(" ")`: split on each single space character,
keeping empty fields. -/
def splitOnSpace (s : String) : List String :=
  (splitCharAux ' ' s.data []).map (fun l => String.mk l)

/-- The four possible outcomes of one run of the gate. -/
inductive Outcome where
  | missingHeader    -- 401 {"error": "Missing authorization header"}
  | malformedHeader  -- 401 {"error": "Invalid authorization header format"}
  | invalidToken     -- 403 {"error": "Invalid API key"}
  | allowed          -- next() is called
  deriving DecidableEq, Repr

/-- The gate: `authMiddleware` from the source, as a pure function of the
`Authorization` header value (absent = `none`) and the configured secret
`process.env.API_KEY` (absent = `none`). Each branch mirrors one source
line; `none`/`""` cases of a JS string are its falsy values. -/
def authMiddleware (authHeader apiKey : Option String) : Outcome :=
  match authHeader with
  | none => .missingHeader
  | some h =>
      if h = "" then .missingHeader
      else
        match (splitOnSpace h)[1]? with
        | none => .malformedHeader
        | some t =>
            if t = "" then .malformedHeader
            else if apiKey ≠ some t then .invalidToken
            else .allowed

/-- Instrumented gate: same control flow, second component records whether
the token-secret comparison (`token !== process.env.API_KEY`) was
evaluated on this run. -/
def authMiddlewareT (authHeader apiKey : Option String) : Outcome × Bool :=
  match authHeader with
  | none => (.missingHeader, false)
  | some h =>
      if h = "" then (.missingHeader, false)
      else
        match (splitOnSpace h)[1]? with
        | none => (.malformedHeader, false)
        | some t =>
            if t = "" then (.malformedHeader, false)
            else if apiKey ≠ some t then (.invalidToken, true)
            else (.allowed, true)

/-- An HTTP request: the `Authorization` header plus everything else the
gate never looks at (method, path, body, ...), kept abstract. -/
structure Request (α : Type) where
  authorization : Option String
  rest : α

/-- The HTTP response the gate produces on rejection: status code and the
error string placed in the JSON body. `none` means the gate called
`next()`. -/
def response : Outcome → Option (Nat × String)
  | .missingHeader => some (401, "Missing authorization header")
  | .malformedHeader => some (401, "Invalid authorization header format")
  | .invalidToken => some (403, "Invalid API key")
  | .allowed => none

/-- Running the middleware in front of a downstream handler: a rejection
is the gate's own response and the handler never runs; on allow, the
handler receives the request unchanged. -/
def serve {α β : Type} (req : Request α) (apiKey : Option String)
    (handler : Request α → β) : Except (Nat × String) β :=
  match response (authMiddleware req.authorization apiKey) with
  | some e => .error e
  | none => .ok (handler req)

/-- True exactly on the `allowed` outcome. -/
def Outcome.isAllowed : Outcome → Bool
  | .allowed => true
  | _ => false

/-- Splitter over the character list at every character satisfying the
predicate, keeping empty fields. -/
def splitPAux (p : Char → Bool) : List Char → List Char → List (List Char)
  | [], acc => [acc.reverse]
  | c :: cs, acc =>
      if p c then acc.reverse :: splitPAux p cs []
      else splitPAux p cs (c :: acc)

/-- Spec-side definition, following the spec's words "split on whitespace
and take the second token": the list of maximal whitespace-free tokens of
the header (split at every whitespace character, empty fields dropped). -/
def specWhitespaceTokens (s : String) : List String :=
  ((splitPAux Char.isWhitespace s.data []).map (fun l => String.mk l)).filter
    (fun t => ¬ t = "")

/-- Spec-side definition: the second whitespace-separated token of the
header, `none` when fewer than two tokens exist. -/
def specSecondToken (s : String) : Option String :=
  (specWhitespaceTokens s)[1]?

/-- C1 counterexample: the header "Bearer s3cr3t extra" consists of three
whitespace-separated tokens, not two, yet with secret "s3cr3t" the gate
allows it through instead of rejecting it as malformed: the code only
inspects the second space-separated field and ignores everything after
it. -/
theorem three_token_header_allowed :
    specWhitespaceTokens "Bearer s3cr3t extra" = ["Bearer", "s3cr3t", "extra"] ∧
      authMiddleware (some "Bearer s3cr3t extra") (some "s3cr3t") = .allowed :=
  ⟨by decide, by decide⟩

/-- C1 (amended): for every present, nonempty Authorization header, the
gate rejects with the malformed-header outcome exactly when the second
space-separated field of the header is absent or empty; headers with more
than two fields are not rejected as malformed but judged by their second
field. -/
theorem malformed_iff_no_second_field (h : String) (key : Option String)
    (hne : ¬ h = "") :
    authMiddleware (some h) key = .malformedHeader ↔
      ((splitOnSpace h)[1]? = none ∨ (splitOnSpace h)[1]? = some "") := by
  constructor
  · intro hm
    cases hg : (splitOnSpace h)[1]? with
    | none => exact Or.inl rfl
    | some t =>
        by_cases ht : t = ""
        · exact Or.inr (by rw [ht])
        · exfalso
          by_cases hk : key = some t
          · simp [authMiddleware, hne, hg, ht, hk] at hm
          · simp [authMiddleware, hne, hg, ht, hk] at hm
  · intro hor
    rcases hor with hg | hg
    · simp [authMiddleware, hne, hg]
    · simp [authMiddleware, hne, hg]

/-- Witness for the amended C1 theorem at the concrete header "s3cr3t". -/
theorem malformed_iff_no_second_field_witness :
    authMiddleware (some "s3cr3t") (some "s3cr3t") = .malformedHeader ↔
      ((splitOnSpace "s3cr3t")[1]? = none ∨
        (splitOnSpace "s3cr3t")[1]? = some "") :=
  malformed_iff_no_second_field "s3cr3t" (some "s3cr3t") (by decide)

/-- C2 counterexample: for the header " Bearer s3cr3t" (leading space)
with secret "s3cr3t", the second whitespace-separated token is "s3cr3t",
equal to the secret; yet the gate evaluates the comparison and rejects
with the invalid-token outcome, so the token it compared was not the
second whitespace-separated token (it was "Bearer", the second field of
the space-split with empty fields kept). -/
theorem leading_space_header_compares_wrong_token :
    specSecondToken " Bearer s3cr3t" = some "s3cr3t" ∧
      authMiddleware (some " Bearer s3cr3t") (some "s3cr3t") = .invalidToken ∧
      (authMiddlewareT (some " Bearer s3cr3t") (some "s3cr3t")).2 = true :=
  ⟨by decide, by decide, by decide⟩

/-- C2 (amended): for every present, nonempty header, the token the gate
compares against the secret is the second field of the header split on
the single space character with empty fields kept; if that field is
absent or empty the gate rejects as malformed, and otherwise the outcome
is allowed or invalid-token according as the secret equals that field. -/
theorem token_is_second_space_field (h : String) (key : Option String)
    (hne : ¬ h = "") :
    ((splitOnSpace h)[1]? = none → authMiddleware (some h) key = .malformedHeader) ∧
      ((splitOnSpace h)[1]? = some "" → authMiddleware (some h) key = .malformedHeader) ∧
      (∀ t, (splitOnSpace h)[1]? = some t → ¬ t = "" →
        (key = some t → authMiddleware (some h) key = .allowed) ∧
          (¬ key = some t → authMiddleware (some h) key = .invalidToken)) := by
  refine ⟨fun hg => by simp [authMiddleware, hne, hg],
    fun hg => by simp [authMiddleware, hne, hg],
    fun t hg ht => ⟨fun hk => by simp [authMiddleware, hne, hg, ht, hk],
      fun hk => by simp [authMiddleware, hne, hg, ht, hk]⟩⟩

/-- Witness for the amended C2 theorem at the concrete header
"Bearer s3cr3t" and secret "s3cr3t". -/
theorem token_is_second_space_field_witness :
    authMiddleware (some "Bearer s3cr3t") (some "s3cr3t") = .allowed :=
  ((token_is_second_space_field "Bearer s3cr3t" (some "s3cr3t")
      (by decide)).2.2 "s3cr3t" (by decide) (by decide)).1 rfl

/-- C3: whenever the gate extracts a token (the header is present and
nonempty and its second space-split field is present and nonempty) and
that token equals the configured secret byte for byte, the gate allows
the request: the downstream handler runs and receives the very same
request, unmodified. -/
theorem allows_token_eq_secret {α β : Type} (req : Request α) (key : Option String)
    (handler : Request α → β) (h t : String)
    (hauth : req.authorization = some h) (hne : ¬ h = "")
    (hget : (splitOnSpace h)[1]? = some t) (htne : ¬ t = "")
    (hkey : key = some t) :
    authMiddleware req.authorization key = .allowed ∧
      serve req key handler = .ok (handler req) := by
  have hout : authMiddleware req.authorization key = .allowed := by
    rw [hauth]
    simp [authMiddleware, hne, hget, htne, hkey]
  exact ⟨hout, by simp [serve, hout, response]⟩

/-- Witness for C3: header "Bearer s3cr3t", secret "s3cr3t", a handler
that returns the untouched payload of the request. -/
theorem allows_token_eq_secret_witness :
    authMiddleware (Request.mk (some "Bearer s3cr3t") (0 : Nat)).authorization
        (some "s3cr3t") = .allowed ∧
      serve (Request.mk (some "Bearer s3cr3t") (0 : Nat)) (some "s3cr3t")
          (fun r => r.rest) =
        .ok ((fun r : Request Nat => r.rest) (Request.mk (some "Bearer s3cr3t") 0)) :=
  allows_token_eq_secret (Request.mk (some "Bearer s3cr3t") (0 : Nat)) (some "s3cr3t")
    (fun r => r.rest) "Bearer s3cr3t" "s3cr3t" rfl (by decide) (by decide) (by decide) rfl

/-- C4: whenever the gate extracts a token and that token is not equal to
the configured secret (in particular also when no secret is configured),
the gate rejects with the invalid-token outcome, HTTP 403 with the
"Invalid API key" error body. -/
theorem rejects_wrong_token (h t : String) (key : Option String)
    (hne : ¬ h = "") (hget : (splitOnSpace h)[1]? = some t) (htne : ¬ t = "")
    (hkey : ¬ key = some t) :
    authMiddleware (some h) key = .invalidToken ∧
      response (authMiddleware (some h) key) = some (403, "Invalid API key") := by
  have hout : authMiddleware (some h) key = .invalidToken := by
    simp [authMiddleware, hne, hget, htne, hkey]
  exact ⟨hout, by rw [hout]; rfl⟩

/-- Witness for C4: header "Bearer wrong" against secret "s3cr3t". -/
theorem rejects_wrong_token_witness :
    authMiddleware (some "Bearer wrong") (some "s3cr3t") = .invalidToken ∧
      response (authMiddleware (some "Bearer wrong") (some "s3cr3t")) =
        some (403, "Invalid API key") :=
  rejects_wrong_token "Bearer wrong" "wrong" (some "s3cr3t") (by decide) (by decide)
    (by decide) (by decide)

/-- C5: whatever secret is configured, an absent Authorization header is
rejected with the missing-header outcome, HTTP 401 with the "Missing
authorization header" error body, and on that run the token-secret
comparison is never evaluated (instrumented gate records `false`). -/
theorem missing_header_rejected (key : Option String) :
    authMiddleware none key = .missingHeader ∧
      authMiddlewareT none key = (.missingHeader, false) ∧
      response (authMiddleware none key) = some (401, "Missing authorization header") :=
  ⟨rfl, rfl, rfl⟩

/-- C6: every run of the gate lands in exactly one of the four outcomes;
on allow the downstream handler runs on the request, and on each of the
three rejections the gate responds with an HTTP status (401 or 403) and a
JSON error body, the same response whatever downstream handler was
installed — the handler never executes. -/
theorem gate_taxonomy {α β : Type} (req : Request α) (key : Option String)
    (handler handlerB : Request α → β) :
    (authMiddleware req.authorization key = .missingHeader ∨
        authMiddleware req.authorization key = .malformedHeader ∨
        authMiddleware req.authorization key = .invalidToken ∨
        authMiddleware req.authorization key = .allowed) ∧
      ((authMiddleware req.authorization key = .allowed ∧
          serve req key handler = .ok (handler req)) ∨
        (∃ s b, (s = 401 ∨ s = 403) ∧
          response (authMiddleware req.authorization key) = some (s, b) ∧
          serve req key handler = .error (s, b) ∧
          serve req key handlerB = .error (s, b))) := by
  cases ho : authMiddleware req.authorization key with
  | missingHeader =>
      exact ⟨Or.inl rfl,
        Or.inr ⟨401, "Missing authorization header", Or.inl rfl, rfl,
          by simp [serve, ho, response], by simp [serve, ho, response]⟩⟩
  | malformedHeader =>
      exact ⟨Or.inr (Or.inl rfl),
        Or.inr ⟨401, "Invalid authorization header format", Or.inl rfl, rfl,
          by simp [serve, ho, response], by simp [serve, ho, response]⟩⟩
  | invalidToken =>
      exact ⟨Or.inr (Or.inr (Or.inl rfl)),
        Or.inr ⟨403, "Invalid API key", Or.inr rfl, rfl,
          by simp [serve, ho, response], by simp [serve, ho, response]⟩⟩
  | allowed =>
      exact ⟨Or.inr (Or.inr (Or.inr rfl)),
        Or.inl ⟨rfl, by simp [serve, ho, response]⟩⟩

/-- C7: the spec scenario with secret "s3cr3t": "Bearer s3cr3t" is
allowed, "Bearer wrong" is rejected as invalid token, an absent header is
rejected as missing, and "s3cr3t" without a scheme is rejected as
malformed. -/
theorem scenario_s3cr3t :
    authMiddleware (some "Bearer s3cr3t") (some "s3cr3t") = .allowed ∧
      authMiddleware (some "Bearer wrong") (some "s3cr3t") = .invalidToken ∧
      authMiddleware none (some "s3cr3t") = .missingHeader ∧
      authMiddleware (some "s3cr3t") (some "s3cr3t") = .malformedHeader :=
  ⟨by decide, by decide, by decide, by decide⟩

/-- C8: the gate is deterministic and depends on nothing but the header
value and the configured secret: two requests carrying the same
Authorization header (over arbitrary, even differently typed, remaining
request data) receive the same outcome under the same secret; the model
is a pure function holding no state between requests. -/
theorem outcome_depends_only_on_header {α₁ α₂ : Type} (r₁ : Request α₁)
    (r₂ : Request α₂) (key : Option String)
    (hh : r₁.authorization = r₂.authorization) :
    authMiddleware r₁.authorization key = authMiddleware r₂.authorization key := by
  rw [hh]

/-- Witness for C8: two requests with the same header but payloads of
different types receive the same outcome. -/
theorem outcome_depends_only_on_header_witness :
    authMiddleware (Request.mk (some "Bearer s3cr3t") (0 : Nat)).authorization
        (some "s3cr3t") =
      authMiddleware (Request.mk (some "Bearer s3cr3t") true).authorization
        (some "s3cr3t") :=
  outcome_depends_only_on_header (Request.mk (some "Bearer s3cr3t") (0 : Nat))
    (Request.mk (some "Bearer s3cr3t") true) (some "s3cr3t") rfl

/-- C9: when no secret is configured, the gate never allows any request:
whatever the header, the outcome is one of the three rejections, because
a present extracted token is never equal to an absent secret. -/
theorem no_secret_never_allows (hdr : Option String) :
    (authMiddleware hdr none).isAllowed = false := by
  cases hdr with
  | none => rfl
  | some h =>
      by_cases hne : h = ""
      · simp [authMiddleware, hne, Outcome.isAllowed]
      · cases hg : (splitOnSpace h)[1]? with
        | none => simp [authMiddleware, hne, hg, Outcome.isAllowed]
        | some t =>
            by_cases ht : t = ""
            · simp [authMiddleware, hne, hg, ht, Outcome.isAllowed]
            · simp [authMiddleware, hne, hg, ht, Outcome.isAllowed]

/-- C10: a present but empty Authorization header is rejected with the
missing-header outcome (HTTP 401, "Missing authorization header"), not
the malformed one: the JavaScript falsiness test treats the empty string
like an absent header. -/
theorem empty_header_treated_missing (key : Option String) :
    authMiddleware (some "") key = .missingHeader ∧
      response (authMiddleware (some "") key) =
        some (401, "Missing authorization header") := by
  have hout : authMiddleware (some "") key = .missingHeader := by
    simp [authMiddleware]
  exact ⟨hout, by rw [hout]; rfl⟩

end HotUpdater
